import Mathlib

/-!
Shallow embedding of `botocore/signers.py` (class `RequestSigner`): the
signer selection / caching / dispatch protocol and the two presign
variants (`generate_url`, `build_post_form_args`).

Python object identity is modelled by an allocation counter (`nextId`);
every constructed auth instance carries the counter value at construction
time as `instId`, so two instances are "the same object" exactly when the
model values are equal.  The in-place mutation of the request is modelled
by explicit state passing, exceptions by `Except`, and the observable
actions of a call (event emissions, strategy lookup and dispatch,
request preparation) by an explicit event trace.
-/

namespace Botocore

/-- Opaque credentials handed to every auth constructor
(`kwargs['credentials'] = self._credentials`). -/
structure Credentials where
  access_key : String
  secret_key : String
deriving Repr, DecidableEq

/-- A registry entry of `botocore.auth.AUTH_TYPE_MAPS`: an auth class,
with its `REQUIRES_REGION` flag. -/
structure AuthType where
  REQUIRES_REGION : Bool
deriving Repr, DecidableEq

/-- A constructed auth instance (`cls(**kwargs)`).  `instId` is the
allocation identity; the remaining fields record exactly the keyword
arguments the constructor received in `get_auth`. -/
structure AuthInstance where
  instId : Nat
  cls : String
  credentials : Credentials
  region_arg : Option (Option String)
  service_arg : Option String
  expires : Option Nat
deriving Repr, DecidableEq

/-- The two exceptions raised by `get_auth`:
`UnknownSignatureVersionError(signature_version=...)` and
`botocore.exceptions.NoRegionError()` (the "MissingRegion" error of the
spec). -/
inductive SignError where
  | UnknownSignatureVersionError (signature_version : String)
  | NoRegionError
deriving Repr, DecidableEq

/-- Python string formatting of an optional region: `'{0}'.format(None)`
yields the string `"None"`. -/
def regionStr : Option String → String
  | none => "None"
  | some r => r

/-- The cache key of `get_auth`:
`key = '{0}.{1}.{2}'.format(signature_version, region_name, signing_name)`. -/
def cacheKey (signature_version : String) (region_name : Option String)
    (signing_name : String) : String :=
  signature_version ++ "." ++ regionStr region_name ++ "." ++ signing_name

/-- The state of one `RequestSigner` object: the construction arguments
(never mutated) plus the auth-instance cache `self._cache` and the
allocation counter modelling object identity. -/
structure RequestSigner where
  service_name : String
  region_name : Option String
  signing_name : String
  signature_version : String
  credentials : Credentials
  cache : List (String × AuthInstance)
  nextId : Nat
deriving Repr, DecidableEq

/-- `RequestSigner.__init__`: a fresh signer starts with an empty cache. -/
def new_request_signer (service_name : String) (region_name : Option String)
    (signing_name : String) (signature_version : String)
    (credentials : Credentials) : RequestSigner :=
  { service_name := service_name
    region_name := region_name
    signing_name := signing_name
    signature_version := signature_version
    credentials := credentials
    cache := []
    nextId := 0 }

/-- `RequestSigner.get_auth(signing_name, region_name, signature_version=None,
**kwargs)`.  Mirrors the source line by line: optional version defaults to
the configured one; the dot-joined cache key is looked up first; then the
registry (`AUTH_TYPE_MAPS`) is consulted; a region-requiring class checks
`self._region_name is None` (the context region, not the parameter) before
construction; the constructed instance is cached and returned.  The only
extra keyword argument used by callers in the source is `expires`. -/
def get_auth (AUTH_TYPE_MAPS : List (String × AuthType)) (s : RequestSigner)
    (signing_name : String) (region_name : Option String)
    (signature_version : Option String) (expires : Option Nat) :
    Except SignError (AuthInstance × RequestSigner) :=
  let version :=
    match signature_version with
    | none => s.signature_version
    | some v => v
  let key := cacheKey version region_name signing_name
  match s.cache.lookup key with
  | some auth => .ok (auth, s)
  | none =>
    match AUTH_TYPE_MAPS.lookup version with
    | none => .error (.UnknownSignatureVersionError version)
    | some cls =>
      if cls.REQUIRES_REGION then
        if s.region_name = none then
          .error .NoRegionError
        else
          let auth : AuthInstance :=
            { instId := s.nextId
              cls := version
              credentials := s.credentials
              region_arg := some region_name
              service_arg := some signing_name
              expires := expires }
          .ok (auth, { s with cache := (key, auth) :: s.cache, nextId := s.nextId + 1 })
      else
        let auth : AuthInstance :=
          { instId := s.nextId
            cls := version
            credentials := s.credentials
            region_arg := none
            service_arg := none
            expires := expires }
        .ok (auth, { s with cache := (key, auth) :: s.cache, nextId := s.nextId + 1 })

/-- An opaque caller-supplied POST-policy condition. -/
abbrev Condition := String

/-- The POST policy document: expiration timestamp plus the ordered
condition list. -/
structure Policy where
  expiration : String
  conditions : List Condition
deriving Repr, DecidableEq

/-- The mutable form-field mapping of `build_post_form_args`. -/
abbrev Fields := List (String × String)

/-- The request side-table (`request.context`), with the two reserved
keys used by POST presign. -/
structure RequestContext where
  presign_post_fields : Option Fields
  presign_post_policy : Option Policy
deriving Repr, DecidableEq

/-- The external mutable request object. -/
structure Request where
  url : String
  headers : List (String × String)
  body : String
  context : RequestContext
deriving Repr, DecidableEq

/-- The serializable request descriptor (`request_dict`). -/
structure RequestDict where
  url : String
  headers : List (String × String)
  body : String
deriving Repr, DecidableEq

/-- `botocore.awsrequest.create_request_object`: materialize a `Request`
from the descriptor, with an empty side-table. -/
def create_request_object (d : RequestDict) : Request :=
  { url := d.url
    headers := d.headers
    body := d.body
    context := { presign_post_fields := none, presign_post_policy := none } }

/-- Left-pad a numeral to two digits. -/
def pad2 (n : Nat) : String :=
  if n < 10 then "0" ++ toString n else toString n

/-- Left-pad a numeral to four digits. -/
def pad4 (n : Nat) : String :=
  if n < 10 then "000" ++ toString n
  else if n < 100 then "00" ++ toString n
  else if n < 1000 then "0" ++ toString n
  else toString n

/-- Modelled from the spec: `expire_date.strftime(botocore.auth.ISO8601)`.
`botocore.auth` is not under `src/`; the spec fixes the pattern as the
ISO-8601 form `YYYY-MM-DDTHH:MM:SSZ` in UTC.  Timestamps are seconds since
the Unix epoch; the civil date is obtained by the standard proleptic
Gregorian conversion. -/
def strftimeISO8601 (t : Nat) : String :=
  let days := t / 86400
  let secs := t % 86400
  let z := days + 719468
  let era := z / 146097
  let doe := z % 146097
  let yoe := (doe - doe / 1460 + doe / 36524 - doe / 146096) / 365
  let y := yoe + era * 400
  let doy := doe - (365 * yoe + yoe / 4 - yoe / 100)
  let mp := (5 * doy + 2) / 153
  let d := doy - (153 * mp + 2) / 5 + 1
  let m := if mp < 10 then mp + 3 else mp - 9
  let y := if m ≤ 2 then y + 1 else y
  pad4 y ++ "-" ++ pad2 m ++ "-" ++ pad2 d ++ "T" ++
    pad2 (secs / 3600) ++ ":" ++ pad2 (secs % 3600 / 60) ++ ":" ++
    pad2 (secs % 60) ++ "Z"

/-- Observable actions of one signing call, in order of occurrence.
`apply_auth` carries the request as passed to `auth.add_auth`;
`prepared` carries the request after `request.prepare()`. -/
inductive SignEvent where
  | choose_signer (event_name : String)
  | before_sign (signature_version : String)
  | get_auth_call (key : String)
  | apply_auth (auth : AuthInstance) (request : Request)
  | s3_host_fix (signature_type : String) (region_name : Option String)
  | prepared (request : Request)
  | policy_built (policy : Policy)
deriving Repr, DecidableEq

/-- The kind of an event, for order-of-occurrence statements. -/
inductive EventKind where
  | choose_k
  | before_k
  | lookup_k
  | apply_k
  | s3fix_k
  | prepare_k
  | policy_k
deriving Repr, DecidableEq

/-- Classify an event. -/
def eventKind : SignEvent → EventKind
  | .choose_signer _ => .choose_k
  | .before_sign _ => .before_k
  | .get_auth_call _ => .lookup_k
  | .apply_auth _ _ => .apply_k
  | .s3_host_fix _ _ => .s3fix_k
  | .prepared _ => .prepare_k
  | .policy_built _ => .policy_k

/-- The kinds of a trace, in order. -/
def eventKinds (tr : List SignEvent) : List EventKind :=
  tr.map eventKind

/-- The URLs of all `prepared` events of a trace, in order. -/
def prepared_urls (tr : List SignEvent) : List String :=
  tr.filterMap fun e =>
    match e with
    | .prepared r => some r.url
    | _ => none

/-- The auth instances dispatched to (`add_auth`) in a trace, in order. -/
def applied_auths (tr : List SignEvent) : List AuthInstance :=
  tr.filterMap fun e =>
    match e with
    | .apply_auth a _ => some a
    | _ => none

/-- The external collaborators of one signing call: the registry, the
event bus (one first-response answer per event name, one broadcast
mutation per event name observing the resolved version), the opaque
strategy application, the endpoint rewriter `fix_s3_host`, request
preparation, and the current UTC clock. -/
structure Env where
  AUTH_TYPE_MAPS : List (String × AuthType)
  choose_signer_response : String → Option String
  before_sign_hook : String → String → Request → Request
  add_auth : AuthInstance → Request → Request
  fix_s3_host : Request → String → Option String → Request
  prepare : Request → Request
  utcnow : Nat

/-- Modelled from the spec: `botocore.UNSIGNED`, defined in the package
root which is not under `src/`.  The spec and the source comment agree
that a blank-string signature version is the bypass sentinel meaning
"no signing is performed". -/
def UNSIGNED : String := ""

/-- The version-override step of `sign`: a response of `None` keeps the
default, any other response replaces it. -/
def resolve_version (response : Option String) (signature_version : String) : String :=
  match response with
  | none => signature_version
  | some v => v

instance {ε α : Type} [DecidableEq ε] [DecidableEq α] : DecidableEq (Except ε α) := fun x y =>
  match x, y with
  | .ok a, .ok b => if h : a = b then .isTrue (by rw [h]) else .isFalse (by simp [h])
  | .error a, .error b => if h : a = b then .isTrue (by rw [h]) else .isFalse (by simp [h])
  | .ok _, .error _ => .isFalse (by simp)
  | .error _, .ok _ => .isFalse (by simp)

/-- The result of `RequestSigner.sign`: the event trace, the final state
of the (mutated-in-place) request, and either the exception or the
updated signer state. -/
structure SignResult where
  trace : List SignEvent
  request : Request
  outcome : Except SignError RequestSigner
deriving Repr, DecidableEq

/-- `RequestSigner.sign(operation_name, request)`: resolve the version via
the `choose-signer` event, broadcast `before-sign`, then — unless the
resolved version is the unsigned sentinel — fetch the auth instance and
apply it to the request. -/
def sign (env : Env) (s : RequestSigner) (operation_name : String)
    (request : Request) : SignResult :=
  let signature_version := s.signature_version
  let choose_event := "choose-signer." ++ s.service_name ++ "." ++ operation_name
  let response := env.choose_signer_response choose_event
  let signature_version := resolve_version response signature_version
  let before_event := "before-sign." ++ s.service_name ++ "." ++ operation_name
  let request := env.before_sign_hook before_event signature_version request
  let trace := [SignEvent.choose_signer choose_event,
                SignEvent.before_sign signature_version]
  if signature_version ≠ UNSIGNED then
    let key := cacheKey signature_version s.region_name s.signing_name
    match get_auth env.AUTH_TYPE_MAPS s s.signing_name s.region_name
        (some signature_version) none with
    | .error e =>
      { trace := trace ++ [SignEvent.get_auth_call key]
        request := request
        outcome := .error e }
    | .ok (auth, s') =>
      let request' := env.add_auth auth request
      { trace := trace ++ [SignEvent.get_auth_call key,
                           SignEvent.apply_auth auth request]
        request := request'
        outcome := .ok s' }
  else
    { trace := trace, request := request, outcome := .ok s }

/-- The region-defaulting step shared by `generate_url` and
`build_post_form_args`: `if region_name is None: region_name =
self._region_name`. -/
def resolved_region (region_name : Option String) (s : RequestSigner) : Option String :=
  match region_name with
  | none => s.region_name
  | some r => some r

/-- Python `str.endswith`. -/
def endswith (s : String) (variant_suffix : String) : Bool :=
  variant_suffix.data.isSuffixOf s.data

/-- The variant-version derivation appearing verbatim in both
`generate_url` (suffix `-query`) and `build_post_form_args`
(suffix `-presign-post`):
`if not signature_version.endswith(p): signature_version += p`. -/
def derive_variant (signature_version : String) (variant_suffix : String) : String :=
  if endswith signature_version variant_suffix then signature_version
  else signature_version ++ variant_suffix

/-- Python `signature_version.split('-', 1)[0]`: the text before the
first dash. -/
def split_first_dash (s : String) : String :=
  String.mk (s.data.takeWhile fun c => c ≠ '-')

/-- The result of `generate_url`: the trace and either the exception or
the returned URL together with the updated signer state. -/
structure UrlResult where
  trace : List SignEvent
  outcome : Except SignError (String × RequestSigner)
deriving Repr, DecidableEq

/-- `RequestSigner.generate_url(request_dict, expires_in=None,
region_name=None)`: resolve the region, derive the `-query` variant
version, fetch the auth instance (passing `expires` only when given),
materialize the request, rewrite the s3 host, apply the auth, then
prepare (finalize) the request and return its URL. -/
def generate_url (env : Env) (s : RequestSigner) (request_dict : RequestDict)
    (expires_in : Option Nat) (region_name : Option String) : UrlResult :=
  let region_name := resolved_region region_name s
  let signature_version := derive_variant s.signature_version "-query"
  let key := cacheKey signature_version region_name s.signing_name
  match get_auth env.AUTH_TYPE_MAPS s s.signing_name region_name
      (some signature_version) expires_in with
  | .error e =>
    { trace := [SignEvent.get_auth_call key], outcome := .error e }
  | .ok (auth, s') =>
    let request := create_request_object request_dict
    let signature_type := split_first_dash signature_version
    let request := env.fix_s3_host request signature_type region_name
    let request' := env.add_auth auth request
    let final := env.prepare request'
    { trace := [SignEvent.get_auth_call key,
                SignEvent.s3_host_fix signature_type region_name,
                SignEvent.apply_auth auth request,
                SignEvent.prepared final]
      outcome := .ok (final.url, s') }

/-- The result of `build_post_form_args`: the trace and either the
exception or the returned `{url, fields}` pair with the updated signer
state. -/
structure PostFormResult where
  trace : List SignEvent
  outcome : Except SignError ((String × Fields) × RequestSigner)
deriving Repr, DecidableEq

/-- `RequestSigner.build_post_form_args(request_dict, fields=None,
conditions=None, expires_in=3600, region_name=None)`: default the
arguments, build the policy document (expiration then the condition
loop), derive the `-presign-post` variant version, fetch the auth
instance, materialize the request, stash fields and policy in the
side-table, apply the auth, rewrite the s3 host, and return the raw
request URL — no prepare step — together with the field mapping (the
same object the strategy mutated through the side-table alias). -/

def build_post_form_args (env : Env) (s : RequestSigner)
    (request_dict : RequestDict) (fields : Option Fields)
    (conditions : Option (List Condition)) (expires_in : Nat)
    (region_name : Option String) : PostFormResult :=
  let fields := fields.getD []
  let conditions := conditions.getD []
  let region_name := resolved_region region_name s
  let datetime_now := env.utcnow
  let expire_date := datetime_now + expires_in
  let policy : Policy :=
    { expiration := strftimeISO8601 expire_date
      conditions := conditions.foldl (fun acc condition => acc ++ [condition]) [] }
  let signature_version := derive_variant s.signature_version "-presign-post"
  let key := cacheKey signature_version region_name s.signing_name
  match get_auth env.AUTH_TYPE_MAPS s s.signing_name region_name
      (some signature_version) none with
  | .error e =>
    { trace := [SignEvent.policy_built policy, SignEvent.get_auth_call key]
      outcome := .error e }
  | .ok (auth, s') =>
    let request := create_request_object request_dict
    let request :=
      { request with
          context := { presign_post_fields := some fields
                       presign_post_policy := some policy } }
    let request' := env.add_auth auth request
    let signature_type := split_first_dash signature_version
    let request'' := env.fix_s3_host request' signature_type region_name
    let out_fields := request''.context.presign_post_fields.getD fields
    { trace := [SignEvent.policy_built policy,
                SignEvent.get_auth_call key,
                SignEvent.apply_auth auth request,
                SignEvent.s3_host_fix signature_type region_name]
      outcome := .ok ((request''.url, out_fields), s') }

/-- Well-formedness of a signer state: every cached instance was allocated
below the current counter, and no two cached instances share an identity. -/
def CacheInv (s : RequestSigner) : Prop :=
  (∀ p ∈ s.cache, p.2.instId < s.nextId) ∧
  (s.cache.map fun p => p.2.instId).Nodup

instance (s : RequestSigner) : Decidable (CacheInv s) := by
  unfold CacheInv
  infer_instance

def fixture_creds : Credentials :=
  { access_key := "AKID", secret_key := "SECRET" }

def w4_reg : List (String × AuthType) := [("v4", { REQUIRES_REGION := true })]

def w4_s : RequestSigner :=
  new_request_signer "ec2" (some "us-east-1") "ec2" "v4" fixture_creds

def w4_a : AuthInstance :=
  { instId := 0
    cls := "v4"
    credentials := fixture_creds
    region_arg := some (some "us-east-1")
    service_arg := some "ec2"
    expires := none }

def w4_s' : RequestSigner :=
  { w4_s with cache := [(cacheKey "v4" (some "us-east-1") "ec2", w4_a)], nextId := 1 }

def w2_s : RequestSigner := new_request_signer "ec2" none "ec2" "v4" fixture_creds

def w1_reg : List (String × AuthType) := [("v4", { REQUIRES_REGION := false })]

def w1_s : RequestSigner :=
  new_request_signer "sns" (some "r") "sns" "v4" fixture_creds

def w1_a1 : AuthInstance :=
  { instId := 0, cls := "v4", credentials := fixture_creds
    region_arg := none, service_arg := none, expires := none }

def w1_a2 : AuthInstance :=
  { instId := 1, cls := "v4", credentials := fixture_creds
    region_arg := none, service_arg := none, expires := none }

def w1_s1 : RequestSigner :=
  { w1_s with cache := [(cacheKey "v4" (some "r1") "sns", w1_a1)], nextId := 1 }

def w1_s2 : RequestSigner :=
  { w1_s1 with
      cache := (cacheKey "v4" (some "r2") "sns", w1_a2) :: w1_s1.cache
      nextId := 2 }

def c1_reg : List (String × AuthType) := [("a.b", { REQUIRES_REGION := false })]

def c1_s : RequestSigner := new_request_signer "svc" (some "c") "d" "x" fixture_creds

def c1_a : AuthInstance :=
  { instId := 0, cls := "a.b", credentials := fixture_creds
    region_arg := none, service_arg := none, expires := none }

def c1_s' : RequestSigner :=
  { c1_s with cache := [("a.b.c.d", c1_a)], nextId := 1 }

def w3_env1 : Env :=
  { AUTH_TYPE_MAPS := []
    choose_signer_response := fun _ => some ""
    before_sign_hook := fun _ _ r => r
    add_auth := fun _ r => r
    fix_s3_host := fun r _ _ => r
    prepare := fun r => r
    utcnow := 0 }

def w3_env2 : Env := { w3_env1 with choose_signer_response := fun _ => none }

def w3_req : Request :=
  create_request_object { url := "https://host/path", headers := [], body := "" }

def w6_env : Env := { w3_env1 with choose_signer_response := fun _ => some "vX" }

/-- Did `generate_url` return a URL (as opposed to raising)? -/
def isOkUrl (r : UrlResult) : Bool :=
  match r.outcome with
  | .ok _ => true
  | .error _ => false

/-- The `expires` construction arguments of a list of auth instances. -/
def expires_of (l : List AuthInstance) : List (Option Nat) :=
  l.map fun a => a.expires

def c6_env : Env :=
  { AUTH_TYPE_MAPS := [("s3-query", { REQUIRES_REGION := false })]
    choose_signer_response := fun _ => some "s3-query.us"
    before_sign_hook := fun _ _ r => r
    add_auth := fun _ r => r
    fix_s3_host := fun r _ _ => r
    prepare := fun r => r
    utcnow := 0 }

def c6_s : RequestSigner :=
  new_request_signer "s3" (some "east-1") "n" "s3" fixture_creds

def c6_d : RequestDict :=
  { url := "https://bucket.host/obj", headers := [], body := "" }

def c6_a : AuthInstance :=
  { instId := 0, cls := "s3-query", credentials := fixture_creds
    region_arg := none, service_arg := none, expires := none }

def c6_s' : RequestSigner :=
  { c6_s with cache := [("s3-query.us.east-1.n", c6_a)], nextId := 1 }

def c6_req : Request := create_request_object c6_d

def w9_env : Env :=
  { AUTH_TYPE_MAPS := [("s3-query", { REQUIRES_REGION := false }),
                       ("s3-presign-post", { REQUIRES_REGION := false })]
    choose_signer_response := fun _ => none
    before_sign_hook := fun _ _ r => r
    add_auth := fun _ r => r
    fix_s3_host := fun r _ _ => r
    prepare := fun r => { r with url := r.url ++ "?X-Amz-Signature=sig" }
    utcnow := 1000 }

def w9_s : RequestSigner :=
  new_request_signer "s3" (some "east-1") "s3" "s3" fixture_creds

def w9_d : RequestDict :=
  { url := "https://bucket.host/key", headers := [], body := "" }

def w9_post_a : AuthInstance :=
  { instId := 0, cls := "s3-presign-post", credentials := fixture_creds
    region_arg := none, service_arg := none, expires := none }

def w9_s' : RequestSigner :=
  { w9_s with cache := [("s3-presign-post.east-1.s3", w9_post_a)], nextId := 1 }

def w9_query_a : AuthInstance :=
  { instId := 0, cls := "s3-query", credentials := fixture_creds
    region_arg := none, service_arg := none, expires := some 60 }

def w9_s2' : RequestSigner :=
  { w9_s with cache := [("s3-query.east-1.s3", w9_query_a)], nextId := 1 }

def w10_a : AuthInstance :=
  { instId := 0, cls := "s3-query", credentials := fixture_creds
    region_arg := none, service_arg := none, expires := some 100 }

def w10_s1 : RequestSigner :=
  { w9_s with cache := [("s3-query.east-1.s3", w10_a)], nextId := 1 }

/-! ### Theorems: supporting lemmas, claim theorems, witnesses and counterexamples -/

theorem cacheInv_new (a : String) (b : Option String) (c d : String)
    (e : Credentials) : CacheInv (new_request_signer a b c d e) := by
  constructor
  · intro p hp
    simp [new_request_signer] at hp
  · simp [new_request_signer]

/-- Appending the suffix makes `endswith` true. -/
theorem endswith_append (v p : String) : endswith (v ++ p) p = true := by
  simp only [endswith, String.data_append, List.isSuffixOf_iff_suffix]
  exact List.suffix_append _ _

/-- The condition-accumulation loop of `build_post_form_args` appends the
supplied conditions in order. -/
theorem foldl_append_singleton (l : List Condition) :
    ∀ acc : List Condition, l.foldl (fun acc c => acc ++ [c]) acc = acc ++ l := by
  induction l with
  | nil => intro acc; simp
  | cons x xs ih => intro acc; simp [ih]

/-- Lookup in a cons cell whose key differs. -/
theorem lookup_cons_of_ne {t : List (String × AuthInstance)} {k k' : String}
    {b : AuthInstance} (h : k ≠ k') : ((k', b) :: t).lookup k = t.lookup k := by
  rw [List.lookup_cons, beq_false_of_ne h]

/-- A successful lookup yields an identity present in the cache image. -/
theorem instId_mem_of_lookup {t : List (String × AuthInstance)} {k : String}
    {a : AuthInstance} (h : t.lookup k = some a) :
    a.instId ∈ t.map fun p => p.2.instId := by
  induction t with
  | nil => simp at h
  | cons p t ih =>
    rw [List.lookup_cons] at h
    by_cases hk : k = p.1
    · simp [hk] at h
      simp [h]
    · rw [beq_false_of_ne hk] at h
      simp [ih h]

/-- A successful lookup respects an identity bound on the cache. -/
theorem lookup_lt_of_bound {t : List (String × AuthInstance)} {k : String}
    {a : AuthInstance} {N : Nat} (hb : ∀ p ∈ t, p.2.instId < N)
    (h : t.lookup k = some a) : a.instId < N := by
  induction t with
  | nil => simp at h
  | cons p t ih =>
    rw [List.lookup_cons] at h
    by_cases hk : k = p.1
    · simp [hk] at h
      have hp := hb p (by simp)
      rw [h] at hp
      exact hp
    · rw [beq_false_of_ne hk] at h
      exact ih (fun q hq => hb q (by simp [hq])) h

/-- With pairwise-distinct identities, lookups at distinct keys yield
distinct identities. -/
theorem lookup_ne_of_nodup {t : List (String × AuthInstance)} {k₁ k₂ : String}
    {a₁ a₂ : AuthInstance}
    (hnd : (t.map fun p => p.2.instId).Nodup)
    (h₁ : t.lookup k₁ = some a₁) (h₂ : t.lookup k₂ = some a₂)
    (hk : k₁ ≠ k₂) : a₁.instId ≠ a₂.instId := by
  induction t with
  | nil => simp at h₁
  | cons p t ih =>
    rw [List.map, List.nodup_cons] at hnd
    rw [List.lookup_cons] at h₁ h₂
    by_cases hk₁ : k₁ = p.1
    · by_cases hk₂ : k₂ = p.1
      · exact absurd (hk₁.trans hk₂.symm) hk
      · simp [hk₁] at h₁
        rw [beq_false_of_ne hk₂] at h₂
        rw [← h₁]
        intro heq
        exact hnd.1 (by rw [heq]; exact instId_mem_of_lookup h₂)
    · by_cases hk₂ : k₂ = p.1
      · simp [hk₂] at h₂
        rw [beq_false_of_ne hk₁] at h₁
        rw [← h₂]
        intro heq
        exact hnd.1 (by rw [← heq]; exact instId_mem_of_lookup h₁)
      · rw [beq_false_of_ne hk₁] at h₁
        rw [beq_false_of_ne hk₂] at h₂
        exact ih hnd.2 h₁ h₂

/-- Inversion for a successful `get_auth` call: either the cache was hit
and the state is unchanged, or it was missed and a fresh instance carrying
the current counter and the passed `expires` was consed onto the cache. -/
theorem get_auth_ok_cases {reg : List (String × AuthType)} {s : RequestSigner}
    {n : String} {r : Option String} {v : String} {e : Option Nat}
    {a : AuthInstance} {s' : RequestSigner}
    (h : get_auth reg s n r (some v) e = .ok (a, s')) :
    (s.cache.lookup (cacheKey v r n) = some a ∧ s' = s) ∨
    (s.cache.lookup (cacheKey v r n) = none ∧ a.instId = s.nextId ∧
     a.expires = e ∧ s'.cache = (cacheKey v r n, a) :: s.cache ∧
     s'.nextId = s.nextId + 1 ∧ s'.service_name = s.service_name ∧
     s'.region_name = s.region_name ∧ s'.signing_name = s.signing_name ∧
     s'.signature_version = s.signature_version ∧
     s'.credentials = s.credentials) := by
  cases hl : s.cache.lookup (cacheKey v r n) with
  | some b =>
    rw [get_auth, hl] at h
    simp at h
    exact Or.inl ⟨by rw [h.1], h.2.symm⟩
  | none =>
    refine Or.inr ⟨rfl, ?_⟩
    rw [get_auth, hl] at h
    cases hr : reg.lookup v with
    | none => rw [hr] at h; simp at h
    | some cls =>
      rw [hr] at h
      by_cases hrr : cls.REQUIRES_REGION = true
      · by_cases hregion : s.region_name = none
        · simp [hrr, hregion] at h
        · simp [hrr, hregion] at h
          obtain ⟨ha, hs⟩ := h
          rw [← ha, ← hs]
          simp
      · simp [hrr] at h
        obtain ⟨ha, hs⟩ := h
        rw [← ha, ← hs]
        simp

/-- A cache hit returns the cached instance with the state unchanged. -/
theorem get_auth_hit {reg : List (String × AuthType)} {s : RequestSigner}
    {n : String} {r : Option String} {v : String} {e : Option Nat}
    {a : AuthInstance} (h : s.cache.lookup (cacheKey v r n) = some a) :
    get_auth reg s n r (some v) e = .ok (a, s) := by
  rw [get_auth, h]

/-- After a successful call, the key maps to the returned instance. -/
theorem get_auth_ok_lookup {reg : List (String × AuthType)} {s : RequestSigner}
    {n : String} {r : Option String} {v : String} {e : Option Nat}
    {a : AuthInstance} {s' : RequestSigner}
    (h : get_auth reg s n r (some v) e = .ok (a, s')) :
    s'.cache.lookup (cacheKey v r n) = some a := by
  rcases get_auth_ok_cases h with ⟨hl, hs⟩ | ⟨_, _, _, hc, _⟩
  · rw [hs]; exact hl
  · rw [hc]; simp [List.lookup]

/-- `get_auth` preserves the cache invariant. -/
theorem get_auth_preserves_cacheInv {reg : List (String × AuthType)}
    {s : RequestSigner} {n : String} {r : Option String} {v : String}
    {e : Option Nat} {a : AuthInstance} {s' : RequestSigner}
    (hinv : CacheInv s) (h : get_auth reg s n r (some v) e = .ok (a, s')) :
    CacheInv s' := by
  rcases get_auth_ok_cases h with ⟨_, hs⟩ | ⟨_, hid, _, hc, hn, _⟩
  · rw [hs]; exact hinv
  · constructor
    · intro p hp
      rw [hc] at hp
      rw [hn]
      rcases List.mem_cons.mp hp with hp | hp
      · rw [hp]
        simp [hid]
      · exact Nat.lt_succ_of_lt (hinv.1 p hp)
    · rw [hc]
      simp only [List.map, List.nodup_cons]
      refine ⟨?_, hinv.2⟩
      intro hmem
      rw [hid] at hmem
      rcases List.mem_map.mp hmem with ⟨q, hq, hqe⟩
      exact absurd hqe (Nat.ne_of_gt (hinv.1 q hq)).symm

/-- C4: two calls to `get_auth` on the same `RequestSigner` with identical
inputs return the same auth instance (object identity: the very same model
value, including its allocation identity) and leave the state unchanged on
the second call. -/
theorem get_auth_identical_inputs_same_instance
    (reg : List (String × AuthType)) (s : RequestSigner) (n : String)
    (r : Option String) (v : String) (e : Option Nat) (a : AuthInstance)
    (s' : RequestSigner)
    (h : get_auth reg s n r (some v) e = .ok (a, s')) :
    get_auth reg s' n r (some v) e = .ok (a, s') :=
  get_auth_hit (get_auth_ok_lookup h)

/-- Witness for C4 at a concrete input: the second identical call returns
the instance cached by the first. -/
theorem get_auth_identical_inputs_same_instance_witness :
    get_auth w4_reg w4_s' "ec2" (some "us-east-1") (some "v4") none =
      .ok (w4_a, w4_s') :=
  get_auth_identical_inputs_same_instance w4_reg w4_s "ec2" (some "us-east-1")
    "v4" none w4_a w4_s' rfl

/-- C2 (amended): on a cache miss that selects a region-requiring
constructor, `get_auth` raises `NoRegionError` if and only if the signer
context region is `None` — the `region_name` parameter alone does not
prevent the error, contrary to the claim as stated. -/
theorem missing_region_iff_context_region_none
    (reg : List (String × AuthType)) (s : RequestSigner) (n : String)
    (r : Option String) (v : String) (e : Option Nat) (cls : AuthType)
    (hmiss : s.cache.lookup (cacheKey v r n) = none)
    (hreg : reg.lookup v = some cls)
    (hrr : cls.REQUIRES_REGION = true) :
    (get_auth reg s n r (some v) e = .error .NoRegionError ↔
      s.region_name = none) := by
  rw [get_auth, hmiss, hreg]
  by_cases hn : s.region_name = none
  · simp [hrr, hn]
  · simp [hrr, hn]

/-- Witness for C2 (amended) at a concrete input: context region `None`
forces the error even though a region parameter is supplied. -/
theorem missing_region_iff_context_region_none_witness :
    get_auth w4_reg w2_s "ec2" (some "us-east-1") (some "v4") none =
      .error .NoRegionError :=
  (missing_region_iff_context_region_none w4_reg w2_s "ec2"
    (some "us-east-1") "v4" none { REQUIRES_REGION := true } rfl rfl rfl).mpr rfl

/-- Counterexample to C2 as stated: the region is supplied as the
parameter (`some "us-east-1"`), the selected constructor requires a
region, yet `get_auth` raises `NoRegionError` because the signer context
region is `None` — the source checks `self._region_name`, not the
parameter. -/
theorem missing_region_despite_region_param :
    w4_reg.lookup "v4" = some { REQUIRES_REGION := true } ∧
    w2_s.region_name = none ∧
    get_auth w4_reg w2_s "ec2" (some "us-east-1") (some "v4") none =
      .error .NoRegionError :=
  ⟨rfl, rfl, rfl⟩

/-- C1 (amended): two `get_auth` calls in sequence on a well-formed signer
whose dot-joined cache keys differ return distinct instances.  (The claim
as stated — distinct tuples give distinct instances — fails, because
distinct tuples can collide after dot-joining.) -/
theorem distinct_keys_distinct_instances
    (reg : List (String × AuthType)) (s s₁ s₂ : RequestSigner)
    (n₁ n₂ : String) (r₁ r₂ : Option String) (v₁ v₂ : String)
    (e₁ e₂ : Option Nat) (a₁ a₂ : AuthInstance)
    (hinv : CacheInv s)
    (h₁ : get_auth reg s n₁ r₁ (some v₁) e₁ = .ok (a₁, s₁))
    (h₂ : get_auth reg s₁ n₂ r₂ (some v₂) e₂ = .ok (a₂, s₂))
    (hk : cacheKey v₁ r₁ n₁ ≠ cacheKey v₂ r₂ n₂) :
    a₁ ≠ a₂ := by
  have hid : a₁.instId ≠ a₂.instId := by
    rcases get_auth_ok_cases h₁ with ⟨hl₁, hs₁⟩ | ⟨hl₁, hi₁, -, hc₁, hn₁, -, -, -, -, -⟩
    · rcases get_auth_ok_cases h₂ with ⟨hl₂, hs₂⟩ | ⟨hl₂, hi₂, -, -, -, -, -, -, -, -⟩
      · rw [hs₁] at hl₂
        exact lookup_ne_of_nodup hinv.2 hl₁ hl₂ hk
      · rw [hs₁] at hi₂
        have hlt := lookup_lt_of_bound hinv.1 hl₁
        rw [hi₂]
        exact Nat.ne_of_lt hlt
    · rcases get_auth_ok_cases h₂ with ⟨hl₂, hs₂⟩ | ⟨hl₂, hi₂, -, -, -, -, -, -, -, -⟩
      · rw [hc₁, lookup_cons_of_ne (Ne.symm hk)] at hl₂
        have hlt := lookup_lt_of_bound hinv.1 hl₂
        rw [hi₁]
        exact (Nat.ne_of_lt hlt).symm
      · rw [hi₁, hi₂, hn₁]
        exact Nat.ne_of_lt (Nat.lt_succ_self _)
  exact fun heq => hid (congrArg AuthInstance.instId heq)

/-- Witness for C1 (amended) at a concrete input: two region-distinct
calls yield observably distinct instances. -/
theorem distinct_keys_distinct_instances_witness :
    CacheInv w1_s ∧ w1_a1 ≠ w1_a2 :=
  ⟨by decide,
   distinct_keys_distinct_instances w1_reg w1_s w1_s1 w1_s2 "sns" "sns"
     (some "r1") (some "r2") "v4" "v4" none none w1_a1 w1_a2 (by decide)
     rfl rfl (by decide)⟩

/-- Counterexample to C1 as stated: the tuples `("a.b", "c", "d")` and
`("a", "b.c", "d")` are distinct, yet both dot-join to the cache key
`"a.b.c.d"`, so the second call returns the very instance cached by the
first. -/
theorem cacheKey_collision_same_instance :
    (("a.b" : String), (some "c" : Option String), ("d" : String)) ≠
      ("a", some "b.c", "d") ∧
    get_auth c1_reg c1_s "d" (some "c") (some "a.b") none = .ok (c1_a, c1_s') ∧
    get_auth c1_reg c1_s' "d" (some "b.c") (some "a") none = .ok (c1_a, c1_s') :=
  ⟨by decide, rfl, rfl⟩

/-- C3: a `choose-signer` response that is the blank string is the bypass
sentinel — `sign` performs no lookup and no dispatch, raises nothing,
leaves the signer state unchanged and the request exactly as the
before-sign broadcast left it; a `None` response (no responder) makes
`sign` behave exactly as if the configured default version had been
chosen. -/
theorem sign_blank_response_skips_and_none_keeps_default
    (env₁ env₂ : Env) (s : RequestSigner) (operation_name : String)
    (request : Request)
    (h₁ : env₁.choose_signer_response
      ("choose-signer." ++ s.service_name ++ "." ++ operation_name) = some "")
    (h₂ : env₂.choose_signer_response
      ("choose-signer." ++ s.service_name ++ "." ++ operation_name) = none) :
    sign env₁ s operation_name request =
      { trace := [SignEvent.choose_signer
                    ("choose-signer." ++ s.service_name ++ "." ++ operation_name),
                  SignEvent.before_sign UNSIGNED]
        request := env₁.before_sign_hook
          ("before-sign." ++ s.service_name ++ "." ++ operation_name)
          UNSIGNED request
        outcome := .ok s } ∧
    sign env₂ s operation_name request =
      sign { env₂ with choose_signer_response := fun _ => some s.signature_version }
        s operation_name request := by
  constructor
  · simp [sign, h₁, resolve_version, UNSIGNED]
  · simp [sign, h₂, resolve_version]

/-- Witness for C3 at a concrete input: blank response skips signing
entirely; absent response equals choosing the configured default. -/
theorem sign_blank_response_skips_and_none_keeps_default_witness :
    sign w3_env1 w2_s "Op" w3_req =
      { trace := [SignEvent.choose_signer "choose-signer.ec2.Op",
                  SignEvent.before_sign ""]
        request := w3_req
        outcome := .ok w2_s } ∧
    sign w3_env2 w2_s "Op" w3_req =
      sign { w3_env2 with
               choose_signer_response := fun _ => some w2_s.signature_version }
        w2_s "Op" w3_req :=
  sign_blank_response_skips_and_none_keeps_default w3_env1 w3_env2 w2_s "Op"
    w3_req rfl rfl

/-- C6 (amended): when the resolved version is not the unsigned sentinel,
has no registered constructor, and its dot-joined key is not already in
the cache, `sign` raises `UnknownSignatureVersionError` and the request is
exactly the pre-call request as mutated by the always-run before-sign
broadcast; the trace shows no dispatch. -/
theorem sign_unknown_version_raises
    (env : Env) (s : RequestSigner) (operation_name : String)
    (request : Request) (version : String)
    (hv : resolve_version
      (env.choose_signer_response
        ("choose-signer." ++ s.service_name ++ "." ++ operation_name))
      s.signature_version = version)
    (hns : version ≠ UNSIGNED)
    (hreg : env.AUTH_TYPE_MAPS.lookup version = none)
    (hmiss : s.cache.lookup
      (cacheKey version s.region_name s.signing_name) = none) :
    sign env s operation_name request =
      { trace := [SignEvent.choose_signer
                    ("choose-signer." ++ s.service_name ++ "." ++ operation_name),
                  SignEvent.before_sign version,
                  SignEvent.get_auth_call
                    (cacheKey version s.region_name s.signing_name)]
        request := env.before_sign_hook
          ("before-sign." ++ s.service_name ++ "." ++ operation_name)
          version request
        outcome := .error (.UnknownSignatureVersionError version) } := by
  have hga : get_auth env.AUTH_TYPE_MAPS s s.signing_name s.region_name
      (some version) none = .error (.UnknownSignatureVersionError version) := by
    simp [get_auth, hmiss, hreg]
  simp [sign, hv, hns, hga]

/-- Witness for C6 (amended) at a concrete input: an unregistered override
version makes `sign` raise, with only resolution and broadcast observed. -/
theorem sign_unknown_version_raises_witness :
    sign w6_env w2_s "Op" w3_req =
      { trace := [SignEvent.choose_signer "choose-signer.ec2.Op",
                  SignEvent.before_sign "vX",
                  SignEvent.get_auth_call "vX.None.ec2"]
        request := w3_req
        outcome := .error (.UnknownSignatureVersionError "vX") } :=
  sign_unknown_version_raises w6_env w2_s "Op" w3_req "vX" rfl (by decide)
    rfl rfl

/-- C7: on every call to `sign`, the trace starts with the choose-signer
resolution followed immediately by the before-sign broadcast carrying the
already-resolved effective version — so the broadcast always runs — and
everything after it is strategy lookup or dispatch. -/
theorem before_sign_runs_between_resolution_and_dispatch
    (env : Env) (s : RequestSigner) (operation_name : String)
    (request : Request) :
    ∃ rest,
      (sign env s operation_name request).trace =
        SignEvent.choose_signer
            ("choose-signer." ++ s.service_name ++ "." ++ operation_name) ::
          SignEvent.before_sign
            (resolve_version
              (env.choose_signer_response
                ("choose-signer." ++ s.service_name ++ "." ++ operation_name))
              s.signature_version) :: rest ∧
      ∀ e ∈ rest, eventKind e = .lookup_k ∨ eventKind e = .apply_k := by
  by_cases hv : resolve_version
      (env.choose_signer_response
        ("choose-signer." ++ s.service_name ++ "." ++ operation_name))
      s.signature_version ≠ UNSIGNED
  · cases hget : get_auth env.AUTH_TYPE_MAPS s s.signing_name s.region_name
        (some (resolve_version
          (env.choose_signer_response
            ("choose-signer." ++ s.service_name ++ "." ++ operation_name))
          s.signature_version)) none with
    | error err =>
      refine ⟨[SignEvent.get_auth_call
          (cacheKey (resolve_version
            (env.choose_signer_response
              ("choose-signer." ++ s.service_name ++ "." ++ operation_name))
            s.signature_version) s.region_name s.signing_name)], ?_, ?_⟩
      · simp [sign, hv, hget]
      · intro e he
        simp only [List.mem_singleton] at he
        subst he
        left
        rfl
    | ok p =>
      obtain ⟨a, s'⟩ := p
      refine ⟨[SignEvent.get_auth_call
          (cacheKey (resolve_version
            (env.choose_signer_response
              ("choose-signer." ++ s.service_name ++ "." ++ operation_name))
            s.signature_version) s.region_name s.signing_name),
        SignEvent.apply_auth a
          (env.before_sign_hook
            ("before-sign." ++ s.service_name ++ "." ++ operation_name)
            (resolve_version
              (env.choose_signer_response
                ("choose-signer." ++ s.service_name ++ "." ++ operation_name))
              s.signature_version) request)], ?_, ?_⟩
      · simp [sign, hv, hget]
      · intro e he
        simp only [List.mem_cons, List.mem_singleton, List.not_mem_nil,
          or_false] at he
        rcases he with rfl | rfl
        · left; rfl
        · right; rfl
  · refine ⟨[], ?_, ?_⟩
    · simp [sign, hv]
    · intro e he
      simp at he

/-- Counterexample to C6 as stated: after a `generate_url` call whose
dotted region parameter seeds the cache key `"s3-query.us.east-1.n"`, a
`sign` call whose resolved version is the unregistered string
`"s3-query.us"` builds the same dot-joined key, hits the cache, raises
nothing and dispatches the cached strategy. -/
theorem unknown_version_masked_by_cache_collision :
    c6_env.AUTH_TYPE_MAPS.lookup "s3-query.us" = none ∧
    ("s3-query.us" : String) ≠ UNSIGNED ∧
    (generate_url c6_env c6_s c6_d none (some "us.east-1")).outcome =
      .ok (c6_d.url, c6_s') ∧
    resolve_version (c6_env.choose_signer_response "choose-signer.s3.Op")
      c6_s'.signature_version = "s3-query.us" ∧
    (sign c6_env c6_s' "Op" c6_req).outcome = .ok c6_s' ∧
    applied_auths (sign c6_env c6_s' "Op" c6_req).trace = [c6_a] :=
  ⟨rfl, by decide, rfl, rfl, rfl, rfl⟩

/-- C5: the variant-suffix derivation used by both presign operations is
idempotent — deriving twice equals deriving once, for every base
identifier and every suffix. -/
theorem derive_variant_idempotent (v p : String) :
    derive_variant (derive_variant v p) p = derive_variant v p := by
  cases h : endswith v p with
  | true => simp [derive_variant, h]
  | false => simp [derive_variant, h, endswith_append]

/-- C8: on every call, `build_post_form_args` first constructs the policy
document whose expiration is the current UTC time plus `expires_in`
seconds in the fixed ISO-8601 format and whose condition list is exactly
the caller-supplied sequence, verbatim and in order. -/
theorem post_policy_expiration_and_conditions
    (env : Env) (s : RequestSigner) (request_dict : RequestDict)
    (fields : Option Fields) (conditions : Option (List Condition))
    (expires_in : Nat) (region_name : Option String) :
    (build_post_form_args env s request_dict fields conditions expires_in
        region_name).trace.head? =
      some (SignEvent.policy_built
        { expiration := strftimeISO8601 (env.utcnow + expires_in)
          conditions := conditions.getD [] }) := by
  have hfold : (conditions.getD []).foldl (fun acc c => acc ++ [c]) [] =
      conditions.getD [] := by
    simpa using foldl_append_singleton (conditions.getD []) []
  cases hget : get_auth env.AUTH_TYPE_MAPS s s.signing_name
      (resolved_region region_name s)
      (some (derive_variant s.signature_version "-presign-post")) none with
  | error err => simp [build_post_form_args, hget, hfold]
  | ok p =>
    obtain ⟨a, s'⟩ := p
    simp [build_post_form_args, hget, hfold]

/-- C9: `build_post_form_args` never prepares the request and returns the
descriptor URL raw (given URL-preserving strategy application and host
rewriting), while `generate_url` prepares the request strictly after the
strategy is applied and returns the prepared URL. -/
theorem post_form_url_raw_generate_url_prepared
    (env : Env) (s s₂ : RequestSigner) (d d₂ : RequestDict)
    (fields : Option Fields) (conditions : Option (List Condition))
    (e : Nat) (rn : Option String) (e₂ : Option Nat) (rn₂ : Option String)
    (u : String) (f : Fields) (s' : RequestSigner) (u₂ : String)
    (s₂' : RequestSigner)
    (hauth : ∀ a r, (env.add_auth a r).url = r.url)
    (hfix : ∀ r t g, (env.fix_s3_host r t g).url = r.url)
    (hb : (build_post_form_args env s d fields conditions e rn).outcome =
      .ok ((u, f), s'))
    (hg : (generate_url env s₂ d₂ e₂ rn₂).outcome = .ok (u₂, s₂')) :
    eventKinds (build_post_form_args env s d fields conditions e rn).trace =
        [.policy_k, .lookup_k, .apply_k, .s3fix_k] ∧
    u = d.url ∧
    eventKinds (generate_url env s₂ d₂ e₂ rn₂).trace =
        [.lookup_k, .s3fix_k, .apply_k, .prepare_k] ∧
    prepared_urls (generate_url env s₂ d₂ e₂ rn₂).trace = [u₂] := by
  cases hgb : get_auth env.AUTH_TYPE_MAPS s s.signing_name
      (resolved_region rn s)
      (some (derive_variant s.signature_version "-presign-post")) none with
  | error err => simp [build_post_form_args, hgb] at hb
  | ok p =>
    obtain ⟨a, st⟩ := p
    cases hgg : get_auth env.AUTH_TYPE_MAPS s₂ s₂.signing_name
        (resolved_region rn₂ s₂)
        (some (derive_variant s₂.signature_version "-query")) e₂ with
    | error err => simp [generate_url, hgg] at hg
    | ok q =>
      obtain ⟨a₂, st₂⟩ := q
      simp [build_post_form_args, hgb] at hb
      simp [generate_url, hgg] at hg
      refine ⟨?_, ?_, ?_, ?_⟩
      · simp [build_post_form_args, hgb, eventKinds, eventKind]
      · rw [← hb.1.1, hfix, hauth]
        simp [create_request_object]
      · simp [generate_url, hgg, eventKinds, eventKind]
      · simp [generate_url, hgg, prepared_urls, hg.1]

/-- C10: the `expires` construction argument is not part of the cache
key — a second `generate_url` call with the same region but a different
`expires_in` dispatches the very instance constructed by the first call,
still carrying the first call's `expires` value. -/
theorem generate_url_expires_not_part_of_cache_key
    (env : Env) (s s₁ : RequestSigner) (d d₂ : RequestDict) (e₁ e₂ : Nat)
    (rn : Option String) (u₁ : String)
    (hmiss : s.cache.lookup
      (cacheKey (derive_variant s.signature_version "-query")
        (resolved_region rn s) s.signing_name) = none)
    (h₁ : (generate_url env s d (some e₁) rn).outcome = .ok (u₁, s₁)) :
    applied_auths (generate_url env s₁ d₂ (some e₂) rn).trace =
      applied_auths (generate_url env s d (some e₁) rn).trace ∧
    expires_of (applied_auths (generate_url env s d (some e₁) rn).trace) =
      [some e₁] ∧
    isOkUrl (generate_url env s₁ d₂ (some e₂) rn) = true := by
  cases hget : get_auth env.AUTH_TYPE_MAPS s s.signing_name
      (resolved_region rn s)
      (some (derive_variant s.signature_version "-query")) (some e₁) with
  | error err => simp [generate_url, hget] at h₁
  | ok p =>
    obtain ⟨a, st⟩ := p
    have hst : st = s₁ := by
      simp [generate_url, hget] at h₁
      exact h₁.2
    subst hst
    have hlook := get_auth_ok_lookup hget
    rcases get_auth_ok_cases hget with ⟨hl, -⟩ |
      ⟨-, -, hexp, -, -, -, hrg, hsg, hver, -⟩
    · rw [hmiss] at hl
      exact Option.noConfusion hl
    · have hget₂ : get_auth env.AUTH_TYPE_MAPS st st.signing_name
          (resolved_region rn st)
          (some (derive_variant st.signature_version "-query")) (some e₂) =
          .ok (a, st) := by
        have hreg : resolved_region rn st = resolved_region rn s := by
          cases rn with
          | none => simp [resolved_region, hrg]
          | some r => simp [resolved_region]
        rw [hsg, hver, hreg]
        exact get_auth_hit hlook
      refine ⟨?_, ?_, ?_⟩
      · simp [generate_url, hget, hget₂, applied_auths]
      · simp [generate_url, hget, applied_auths, expires_of, hexp]
      · simp [generate_url, hget₂, isOkUrl]

/-- Witness for C9 at a concrete input: the POST form URL is the raw
descriptor URL with no prepare event, while the presigned URL is the
prepared (query-serialized) one. -/
theorem post_form_url_raw_generate_url_prepared_witness :
    eventKinds (build_post_form_args w9_env w9_s w9_d none none 600 none).trace =
        [EventKind.policy_k, EventKind.lookup_k, EventKind.apply_k,
         EventKind.s3fix_k] ∧
    ("https://bucket.host/key" : String) = w9_d.url ∧
    eventKinds (generate_url w9_env w9_s w9_d (some 60) none).trace =
        [EventKind.lookup_k, EventKind.s3fix_k, EventKind.apply_k,
         EventKind.prepare_k] ∧
    prepared_urls (generate_url w9_env w9_s w9_d (some 60) none).trace =
        ["https://bucket.host/key?X-Amz-Signature=sig"] :=
  post_form_url_raw_generate_url_prepared w9_env w9_s w9_s w9_d w9_d none none
    600 none (some 60) none "https://bucket.host/key" [] w9_s'
    "https://bucket.host/key?X-Amz-Signature=sig" w9_s2'
    (fun _ _ => rfl) (fun _ _ _ => rfl) rfl rfl

/-- Witness for C10 at a concrete input: the second call with a different
`expires_in` dispatches the instance still carrying `expires = 100`. -/
theorem generate_url_expires_not_part_of_cache_key_witness :
    applied_auths (generate_url w9_env w10_s1 w9_d (some 200) none).trace =
      applied_auths (generate_url w9_env w9_s w9_d (some 100) none).trace ∧
    expires_of (applied_auths (generate_url w9_env w9_s w9_d (some 100) none).trace) =
      [some 100] ∧
    isOkUrl (generate_url w9_env w10_s1 w9_d (some 200) none) = true :=
  generate_url_expires_not_part_of_cache_key w9_env w9_s w10_s1 w9_d w9_d
    100 200 none "https://bucket.host/key?X-Amz-Signature=sig" rfl rfl

end Botocore
